import Mathlib

/-!
Verification of the AniVish media player against its natural-language
specification.

The Python sources are shallowly embedded as executable Lean definitions:

* `core/config_loader.py` — the configuration dataclasses, the
  dictionary/tree conversions, loading with fallback, and the
  recent-files list.
* `src/ui/keybindings.py` — the default keybinding table and the
  loading rule.
* `core/anivish_backend.py` — volume/mute emulation and relative seek.
* `core/videomanager.py` — source classification, validation, the
  `load` sequence and the playback state machine with its
  `state_changed` event.

Modelling conventions:

* Python `float` configuration values are modelled as `Rat`; the claims
  under study never exercise float rounding, and Python's JSON writer and
  reader round-trip every float exactly.
* A parsed JSON configuration file is modelled by `ConfigDict`: every
  recognised key is an `Option` field (present or absent) of the field's
  declared type, and unrecognised keys are recorded by name in an
  `extra` list.  Keyword-expansion of a section dictionary
  (`PlaybackConfig(**d)` and friends) fails — Python raises `TypeError`
  — exactly when the section has an unrecognised key; this is the
  `Except Unit` result of the `…FromDict` functions.
* The filesystem and the ability to read a file are abstracted by `FS`,
  a record of boolean oracles indexed by path strings.
* `urlparse` and `splitext` are embedded for the scheme/netloc/path and
  extension fragments actually consulted by the sources (POSIX
  separator, ASCII schemes, query and fragment stripping).
-/

/-! ## Configuration data model (`core/config_loader.py`) -/

/-- Playback-related settings (`PlaybackConfig` dataclass). -/
structure PlaybackConfig where
  default_volume : Int := 100
  default_speed : Rat := 1
  resume_playback : Bool := true
  skip_interval_short : Int := 10000
  skip_interval_long : Int := 60000
  auto_play_next : Bool := false
deriving DecidableEq

/-- Audio-related settings (`AudioConfig` dataclass). -/
structure AudioConfig where
  preferred_audio_track : Int := -1
  audio_delay_ms : Int := 0
  normalize_audio : Bool := false
  preferred_language : String := "eng"
deriving DecidableEq

/-- Subtitle-related settings (`SubtitleConfig` dataclass). -/
structure SubtitleConfig where
  enabled : Bool := true
  preferred_language : String := ""
  subtitle_delay_ms : Int := 0
  font_size : Int := 24
  font_color : String := "#FFFFFF"
  background_opacity : Rat := 1 / 2
deriving DecidableEq

/-- UI-related settings (`UIConfig` dataclass). -/
structure UIConfig where
  theme : String := "dark"
  window_width : Int := 1280
  window_height : Int := 720
  window_maximized : Bool := false
  show_controls_on_hover : Bool := true
  controls_timeout_ms : Int := 3000
deriving DecidableEq

/-- Logging-related settings (`LoggingConfig` dataclass). -/
structure LoggingConfig where
  level : String := "INFO"
  log_to_file : Bool := false
  log_directory : String := "./logs"
deriving DecidableEq

/-- Root configuration container (`AniVishConfig` dataclass). -/
structure AniVishConfig where
  playback : PlaybackConfig := {}
  audio : AudioConfig := {}
  subtitle : SubtitleConfig := {}
  ui : UIConfig := {}
  logging : LoggingConfig := {}
  recent_files : List String := []
  max_recent_files : Int := 10
deriving DecidableEq

/-- A parsed JSON object for the `playback` section: recognised keys as
optional fields, unrecognised keys listed in `extra`. -/
structure PlaybackDict where
  default_volume : Option Int := none
  default_speed : Option Rat := none
  resume_playback : Option Bool := none
  skip_interval_short : Option Int := none
  skip_interval_long : Option Int := none
  auto_play_next : Option Bool := none
  extra : List String := []
deriving DecidableEq

/-- A parsed JSON object for the `audio` section. -/
structure AudioDict where
  preferred_audio_track : Option Int := none
  audio_delay_ms : Option Int := none
  normalize_audio : Option Bool := none
  preferred_language : Option String := none
  extra : List String := []
deriving DecidableEq

/-- A parsed JSON object for the `subtitle` section. -/
structure SubtitleDict where
  enabled : Option Bool := none
  preferred_language : Option String := none
  subtitle_delay_ms : Option Int := none
  font_size : Option Int := none
  font_color : Option String := none
  background_opacity : Option Rat := none
  extra : List String := []
deriving DecidableEq

/-- A parsed JSON object for the `ui` section. -/
structure UIDict where
  theme : Option String := none
  window_width : Option Int := none
  window_height : Option Int := none
  window_maximized : Option Bool := none
  show_controls_on_hover : Option Bool := none
  controls_timeout_ms : Option Int := none
  extra : List String := []
deriving DecidableEq

/-- A parsed JSON object for the `logging` section. -/
structure LoggingDict where
  level : Option String := none
  log_to_file : Option Bool := none
  log_directory : Option String := none
  extra : List String := []
deriving DecidableEq

/-- A parsed top-level JSON configuration object.  Recognised top-level
keys are optional fields; unrecognised top-level keys are listed in
`extra` (the source only probes the recognised keys with membership
tests, so `extra` is never consulted). -/
structure ConfigDict where
  playback : Option PlaybackDict := none
  audio : Option AudioDict := none
  subtitle : Option SubtitleDict := none
  ui : Option UIDict := none
  logging : Option LoggingDict := none
  recent_files : Option (List String) := none
  max_recent_files : Option Int := none
  extra : List String := []
deriving DecidableEq

/-- `PlaybackConfig(**d)`: Python raises `TypeError` when `d` holds an
unexpected keyword; otherwise absent keys take the dataclass defaults. -/
def playbackFromDict (d : PlaybackDict) : Except Unit PlaybackConfig :=
  if d.extra = [] then
    .ok { default_volume := d.default_volume.getD 100
          default_speed := d.default_speed.getD 1
          resume_playback := d.resume_playback.getD true
          skip_interval_short := d.skip_interval_short.getD 10000
          skip_interval_long := d.skip_interval_long.getD 60000
          auto_play_next := d.auto_play_next.getD false }
  else .error ()

/-- `AudioConfig(**d)`. -/
def audioFromDict (d : AudioDict) : Except Unit AudioConfig :=
  if d.extra = [] then
    .ok { preferred_audio_track := d.preferred_audio_track.getD (-1)
          audio_delay_ms := d.audio_delay_ms.getD 0
          normalize_audio := d.normalize_audio.getD false
          preferred_language := d.preferred_language.getD "eng" }
  else .error ()

/-- `SubtitleConfig(**d)`. -/
def subtitleFromDict (d : SubtitleDict) : Except Unit SubtitleConfig :=
  if d.extra = [] then
    .ok { enabled := d.enabled.getD true
          preferred_language := d.preferred_language.getD ""
          subtitle_delay_ms := d.subtitle_delay_ms.getD 0
          font_size := d.font_size.getD 24
          font_color := d.font_color.getD "#FFFFFF"
          background_opacity := d.background_opacity.getD (1 / 2) }
  else .error ()

/-- `UIConfig(**d)`. -/
def uiFromDict (d : UIDict) : Except Unit UIConfig :=
  if d.extra = [] then
    .ok { theme := d.theme.getD "dark"
          window_width := d.window_width.getD 1280
          window_height := d.window_height.getD 720
          window_maximized := d.window_maximized.getD false
          show_controls_on_hover := d.show_controls_on_hover.getD true
          controls_timeout_ms := d.controls_timeout_ms.getD 3000 }
  else .error ()

/-- `LoggingConfig(**d)`. -/
def loggingFromDict (d : LoggingDict) : Except Unit LoggingConfig :=
  if d.extra = [] then
    .ok { level := d.level.getD "INFO"
          log_to_file := d.log_to_file.getD false
          log_directory := d.log_directory.getD "./logs" }
  else .error ()

/-- `ConfigLoader._dict_to_config`: starts from an all-default tree and
overwrites each section that is present in the data, expanding the
section object as keyword arguments; membership tests ignore any other
top-level key.  A `TypeError` raised by a keyword expansion propagates
(it is caught further up, in `_load`).  `loadSection` is the shape of
one conditional section overwrite: keep the default when the key is
absent, expand the keyword arguments when present. -/
def loadSection {D C : Type} (fromDict : D → Except Unit C) (dflt : C) :
    Option D → Except Unit C
  | none => .ok dflt
  | some x => fromDict x

def dict_to_config (d : ConfigDict) : Except Unit AniVishConfig := do
  let playback ← loadSection playbackFromDict {} d.playback
  let audio ← loadSection audioFromDict {} d.audio
  let subtitle ← loadSection subtitleFromDict {} d.subtitle
  let ui ← loadSection uiFromDict {} d.ui
  let logging ← loadSection loggingFromDict {} d.logging
  .ok { playback := playback
        audio := audio
        subtitle := subtitle
        ui := ui
        logging := logging
        recent_files := d.recent_files.getD []
        max_recent_files := d.max_recent_files.getD 10 }

/-- `ConfigLoader._config_to_dict`: serializes the full tree; `asdict`
emits every field of every section, so all optional fields are present
and no extra keys occur. -/
def config_to_dict (c : AniVishConfig) : ConfigDict :=
  { playback := some
      { default_volume := some c.playback.default_volume
        default_speed := some c.playback.default_speed
        resume_playback := some c.playback.resume_playback
        skip_interval_short := some c.playback.skip_interval_short
        skip_interval_long := some c.playback.skip_interval_long
        auto_play_next := some c.playback.auto_play_next }
    audio := some
      { preferred_audio_track := some c.audio.preferred_audio_track
        audio_delay_ms := some c.audio.audio_delay_ms
        normalize_audio := some c.audio.normalize_audio
        preferred_language := some c.audio.preferred_language }
    subtitle := some
      { enabled := some c.subtitle.enabled
        preferred_language := some c.subtitle.preferred_language
        subtitle_delay_ms := some c.subtitle.subtitle_delay_ms
        font_size := some c.subtitle.font_size
        font_color := some c.subtitle.font_color
        background_opacity := some c.subtitle.background_opacity }
    ui := some
      { theme := some c.ui.theme
        window_width := some c.ui.window_width
        window_height := some c.ui.window_height
        window_maximized := some c.ui.window_maximized
        show_controls_on_hover := some c.ui.show_controls_on_hover
        controls_timeout_ms := some c.ui.controls_timeout_ms }
    logging := some
      { level := some c.logging.level
        log_to_file := some c.logging.log_to_file
        log_directory := some c.logging.log_directory }
    recent_files := some c.recent_files
    max_recent_files := some c.max_recent_files }

/-- `ConfigLoader._load` on an existing file: `none` models a JSON parse
failure (`json.JSONDecodeError`); a structural failure inside
`_dict_to_config` (the `TypeError` of a keyword expansion) is caught by
the generic handler.  Both handlers replace the tree with an all-default
one; nothing is re-raised to the caller. -/
def load_config (data : Option ConfigDict) : AniVishConfig :=
  match data with
  | none => {}
  | some d =>
    match dict_to_config d with
    | .ok c => c
    | .error _ => {}

/-- Python slice `l[:m]` for an `int` bound `m`: a nonnegative bound
keeps the first `m` elements, a negative bound drops `-m` elements from
the end. -/
def pySliceTo {α : Type} (l : List α) (m : Int) : List α :=
  if 0 ≤ m then l.take m.toNat else l.take (l.length - (-m).toNat)

/-- `ConfigLoader.add_recent_file`: `list.remove` drops the first
occurrence of `path` if present, the path is inserted at index 0, and
the list is trimmed with the slice `[:max_recent_files]`. -/
def add_recent_file (c : AniVishConfig) (path : String) : AniVishConfig :=
  { c with recent_files := pySliceTo (path :: c.recent_files.erase path) c.max_recent_files }

/-! ## Keybinding manager (`src/ui/keybindings.py`) -/

/-- `KeybindingManager.DEFAULT_KEYBINDINGS`, in source order. -/
def DEFAULT_KEYBINDINGS : List (String × String) :=
  [("Space", "toggle_play_pause"),
   ("K", "toggle_play_pause"),
   ("P", "toggle_play_pause"),
   ("S", "stop"),
   ("Left", "seek_backward"),
   ("Right", "seek_forward"),
   ("Shift+Left", "seek_backward_long"),
   ("Shift+Right", "seek_forward_long"),
   ("Up", "volume_up"),
   ("Down", "volume_down"),
   ("M", "toggle_mute"),
   ("F", "toggle_fullscreen"),
   ("Escape", "exit_fullscreen"),
   ("Ctrl+O", "open_file"),
   ("Ctrl+U", "open_url"),
   ("Ctrl+L", "open_url"),
   ("Ctrl+R", "show_recent"),
   ("Ctrl+,", "show_settings"),
   ("Ctrl+Q", "quit"),
   ("Ctrl+W", "quit"),
   ("J", "subtitle_delay_decrease"),
   ("L", "subtitle_delay_increase"),
   ("H", "audio_delay_decrease"),
   (";", "audio_delay_increase"),
   ("[", "speed_decrease"),
   ("]", "speed_increase"),
   ("=", "speed_reset")]

/-- The default keymap as enumerated in section 6 of the specification
("Space/K/P→toggle_play_pause, S→stop, …").  This definition follows
the specification text, not the source, so that the two tables can be
compared. -/
def specEnumeratedKeybindings : List (String × String) :=
  [("Space", "toggle_play_pause"), ("K", "toggle_play_pause"), ("P", "toggle_play_pause"),
   ("S", "stop"),
   ("Left", "seek_backward"), ("Right", "seek_forward"),
   ("Shift+Left", "seek_backward_long"), ("Shift+Right", "seek_forward_long"),
   ("Up", "volume_up"), ("Down", "volume_down"),
   ("M", "toggle_mute"),
   ("F", "toggle_fullscreen"), ("Escape", "exit_fullscreen"),
   ("Ctrl+O", "open_file"),
   ("Ctrl+U", "open_url"), ("Ctrl+L", "open_url"),
   ("Ctrl+R", "show_recent"),
   ("Ctrl+,", "show_settings"),
   ("Ctrl+Q", "quit"), ("Ctrl+W", "quit"),
   ("J", "subtitle_delay_decrease"), ("L", "subtitle_delay_increase"),
   ("H", "audio_delay_decrease"), (";", "audio_delay_increase"),
   ("[", "speed_decrease"), ("]", "speed_increase"), ("=", "speed_reset")]

/-- `KeybindingManager.load_keybindings`: the argument models the file —
`none` when no path is given or the path does not exist, `some (.ok m)`
when the file exists and parses to the flat object `m`, and
`some (.error ())` when opening or parsing fails.  A parsed file
replaces the table wholesale; every failure path copies the defaults. -/
def load_keybindings (file : Option (Except Unit (List (String × String)))) :
    List (String × String) :=
  match file with
  | some (.ok m) => m
  | some (.error _) => DEFAULT_KEYBINDINGS
  | none => DEFAULT_KEYBINDINGS

/-! ## Playback engine adapter (`core/anivish_backend.py`) -/

/-- The mute-emulation state of `AniVishBackend`: the engine volume plus
the `_muted` flag and `_pre_mute_volume` fields. -/
structure BackendAudioState where
  volume : Int
  muted : Bool := false
  pre_mute_volume : Int := 100
deriving DecidableEq

/-- A freshly constructed backend: `_muted = False`,
`_pre_mute_volume = 100`, engine volume as reported by the engine. -/
def initAudioState (engineVolume : Int) : BackendAudioState :=
  { volume := engineVolume }

/-- `AniVishBackend.set_volume`: clamps to [0, 100], pushes the volume
to the engine, and clears the `_muted` flag only when the clamped value
is positive. -/
def set_volume (s : BackendAudioState) (vol : Int) : BackendAudioState :=
  let v := max 0 (min 100 vol)
  { s with volume := v, muted := if 0 < v then false else s.muted }

/-- `AniVishBackend.get_volume`. -/
def get_volume (s : BackendAudioState) : Int :=
  s.volume

/-- `AniVishBackend.mute`: when not already muted, remembers the current
volume, zeroes the engine volume and sets the flag; otherwise a no-op. -/
def mute (s : BackendAudioState) : BackendAudioState :=
  if s.muted then s
  else { volume := 0, muted := true, pre_mute_volume := s.volume }

/-- `AniVishBackend.unmute`: when muted, restores the remembered volume
and clears the flag; otherwise a no-op. -/
def unmute (s : BackendAudioState) : BackendAudioState :=
  if s.muted then { s with volume := s.pre_mute_volume, muted := false }
  else s

/-- `AniVishBackend.toggle_mute`. -/
def toggle_mute (s : BackendAudioState) : BackendAudioState :=
  if s.muted then unmute s else mute s

/-- `AniVishBackend.is_muted`. -/
def is_muted (s : BackendAudioState) : Bool :=
  s.muted

/-- `AniVishBackend.seek_relative`, as a function of the engine's
reported current time and total duration (both in milliseconds) and the
requested offset: when the current time is nonnegative the target is
`max 0 (current + offset)`, additionally capped at the total duration
when that duration is positive, and a seek to the target is issued
(`some target`); otherwise no seek happens (`none`). -/
def seek_relative (current total offset : Int) : Option Int :=
  if 0 ≤ current then
    let new_pos := max 0 (current + offset)
    some (if 0 < total then min new_pos total else new_pos)
  else none

/-! ## String fragments used by `core/videomanager.py`

`urllib.parse.urlparse` (scheme, netloc and path components, ASCII
schemes, netloc delimited by a leading `//`, query and fragment
stripped from the path) and POSIX `os.path.splitext`. -/

/-- Characters allowed in a URL scheme after the leading letter. -/
def isSchemeChar (c : Char) : Bool :=
  c.isAlpha || c.isDigit || c = '+' || c = '-' || c = '.'

/-- Split a character list at the first occurrence of `d`, if any,
dropping the occurrence. -/
def splitAtChar : List Char → Char → Option (List Char × List Char)
  | [], _ => none
  | c :: cs, d =>
    if c = d then some ([], cs)
    else
      match splitAtChar cs d with
      | none => none
      | some (a, b) => some (c :: a, b)

/-- Scheme extraction of `urlsplit`: a nonempty run of scheme characters
starting with a letter, up to the first colon, is the (lowercased)
scheme; everything after the colon is the remainder.  Otherwise the
scheme is empty and the input is left intact. -/
def schemeSplit (l : List Char) : List Char × List Char :=
  match splitAtChar l ':' with
  | none => ([], l)
  | some (pre, post) =>
    if pre ≠ [] ∧ pre.all isSchemeChar ∧ (pre.headD ' ').isAlpha then
      (pre.map Char.toLower, post)
    else ([], l)

/-- Netloc extraction of `urlsplit`: when the remainder starts with
`//`, the netloc runs until the next `/`, `?` or `#`. -/
def netlocSplit (l : List Char) : List Char × List Char :=
  match l with
  | '/' :: '/' :: rest =>
    (rest.takeWhile (fun c => !(c = '/' || c = '?' || c = '#')),
     rest.dropWhile (fun c => !(c = '/' || c = '?' || c = '#')))
  | _ => ([], l)

/-- Truncate a character list at the first occurrence of `d`. -/
def dropFromChar (l : List Char) (d : Char) : List Char :=
  match splitAtChar l d with
  | none => l
  | some (a, _) => a

/-- The components of `urllib.parse.urlparse` consulted by the player. -/
structure UrlParts where
  scheme : String
  netloc : String
  path : String
deriving DecidableEq

/-- `urllib.parse.urlparse`, restricted to scheme, netloc and path:
scheme split, then netloc split, then the fragment and the query are
stripped from what remains to leave the path. -/
def urlparse (s : String) : UrlParts :=
  let sr := schemeSplit s.data
  let nr := netlocSplit sr.2
  let path := dropFromChar (dropFromChar nr.2 '#') '?'
  { scheme := sr.1.asString, netloc := nr.1.asString, path := path.asString }

/-- The basename of a POSIX path: everything after the last `/`. -/
def afterLastSlash (l : List Char) : List Char :=
  (l.reverse.takeWhile (fun c => c != '/')).reverse

/-- The extension computed by POSIX `os.path.splitext`: the suffix of
the basename from its last dot, provided some earlier character of the
basename is not a dot (so leading dots never start an extension);
otherwise empty. -/
def extOf (l : List Char) : List Char :=
  let b := afterLastSlash l
  let r := b.reverse
  let afterDotRev := r.takeWhile (fun c => c != '.')
  match r.dropWhile (fun c => c != '.') with
  | '.' :: beforeDotRev =>
    if beforeDotRev.any (fun c => c != '.') then '.' :: afterDotRev.reverse
    else []
  | _ => []

/-- `os.path.splitext(p)[1].lower()` as used by the video manager. -/
def extLower (s : String) : String :=
  ((extOf s.data).map Char.toLower).asString

/-- Does `l` start with `p`? -/
def startsWithList : List Char → List Char → Bool
  | _, [] => true
  | [], _ :: _ => false
  | c :: cs, d :: ds => c = d && startsWithList cs ds

/-- Python's substring test `needle in hay`. -/
def containsSub (hay needle : List Char) : Bool :=
  match hay with
  | [] => needle.isEmpty
  | _ :: t => startsWithList hay needle || containsSub t needle

/-- The whitespace characters stripped by `str.strip()` (ASCII range). -/
def isPySpace (c : Char) : Bool :=
  c = ' ' || c = '\t' || c = '\n' || c = '\r' || c = Char.ofNat 11 || c = Char.ofNat 12

/-- Remove leading and trailing characters satisfying `p`. -/
def stripChars (p : Char → Bool) (l : List Char) : List Char :=
  ((l.dropWhile p).reverse.dropWhile p).reverse

/-- `source.strip().strip(DQUOTE).strip(QUOTE)` as performed at the top
of `VideoManager.load`. -/
def pyStrip (s : String) : String :=
  let l1 := stripChars isPySpace s.data
  let l2 := stripChars (fun c => c = '"') l1
  let l3 := stripChars (fun c => c = Char.ofNat 39) l2
  l3.asString

/-! ## Video manager (`core/videomanager.py`) -/

/-- `PlaybackState` enumeration. -/
inductive PlaybackState where
  | IDLE | LOADING | PLAYING | PAUSED | STOPPED | BUFFERING | ENDED | ERROR
deriving DecidableEq

/-- `MediaType` enumeration. -/
inductive MediaType where
  | LOCAL_FILE | HTTP_URL | STREAM_HLS | STREAM_DASH | UNKNOWN
deriving DecidableEq

/-- Why a 1024-byte probe read of a local file fails, mirroring the two
exception arms of `_validate_local_file` (`PermissionError` and
`IOError e`). -/
inductive ReadFailure where
  | permission
  | ioError (msg : String)
deriving DecidableEq

/-- The filesystem oracles consulted by the video manager:
`os.path.exists`, `os.path.isfile`, and the outcome of opening the file
and reading 1024 bytes. -/
structure FS where
  pathExists : String → Bool
  isFile : String → Bool
  readFailure : String → Option ReadFailure

/-- `VideoManager.SUPPORTED_VIDEO_EXT`. -/
def SUPPORTED_VIDEO_EXT : List String :=
  [".mp4", ".mkv", ".avi", ".mov", ".wmv", ".flv", ".webm", ".m4v", ".mpeg", ".mpg", ".3gp"]

/-- `VideoManager.SUPPORTED_AUDIO_EXT`. -/
def SUPPORTED_AUDIO_EXT : List String :=
  [".mp3", ".wav", ".flac", ".aac", ".ogg", ".wma", ".m4a"]

/-- `VideoManager._detect_media_type`: sources with a recognised URL
scheme are classified by the (lowercased) extension of the URL path;
otherwise an existing filesystem path is a local file; otherwise
unknown. -/
def detect_media_type (fs : FS) (source : String) : MediaType :=
  let parsed := urlparse source
  if parsed.scheme ∈ ["http", "https", "rtsp", "rtmp", "mms"] then
    let ext := extLower parsed.path
    if ext = ".m3u8" ∨ ext = ".m3u" then .STREAM_HLS
    else if ext = ".mpd" then .STREAM_DASH
    else .HTTP_URL
  else if fs.pathExists source then .LOCAL_FILE
  else .UNKNOWN

/-- `VideoManager._validate_local_file`: existence, regular-file,
extension (when present, membership in the union of the video and audio
sets) and readability checks, each with its message. -/
def validate_local_file (fs : FS) (path : String) : Bool × Option String :=
  if !fs.pathExists path then (false, some ("File not found: " ++ path))
  else if !fs.isFile path then (false, some ("Not a file: " ++ path))
  else
    let ext := extLower path
    if ext ≠ "" ∧ ext ∉ SUPPORTED_VIDEO_EXT ++ SUPPORTED_AUDIO_EXT then
      (false, some ("Unsupported format: " ++ ext))
    else
      match fs.readFailure path with
      | some .permission => (false, some ("Permission denied: " ++ path))
      | some (.ioError e) => (false, some ("Cannot read file: " ++ e))
      | none => (true, none)

/-- `VideoManager._validate_url`: nonempty scheme, scheme in the
supported set, and a nonempty host unless the scheme is `file`. -/
def validate_url (url : String) : Bool × Option String :=
  let parsed := urlparse url
  if parsed.scheme = "" then (false, some "URL missing scheme (http/https)")
  else if parsed.scheme ∉ ["http", "https", "rtsp", "rtmp", "mms", "file"] then
    (false, some ("Unsupported URL scheme: " ++ parsed.scheme))
  else if parsed.netloc = "" ∧ parsed.scheme ≠ "file" then
    (false, some "URL missing host")
  else (true, none)

/-- `VideoManager.validate_source`: dispatch on the detected media type,
with a last-resort URL validation for unknown sources containing `://`. -/
def validate_source (fs : FS) (source : String) : Bool × Option String :=
  match detect_media_type fs source with
  | .LOCAL_FILE => validate_local_file fs source
  | .HTTP_URL => validate_url source
  | .STREAM_HLS => validate_url source
  | .STREAM_DASH => validate_url source
  | .UNKNOWN =>
    if containsSub source.data "://".data then validate_url source
    else (false, some "Invalid or unrecognized media source")

/-- The video manager state touched by the claims: the playback state,
the current source, the detected media type, the last error, and the
log of emitted `state_changed(old, new)` events.  (The recent-files
side effect of a successful local-file load lives in the configuration
store and is not consulted by any claim.) -/
structure VMState where
  state : PlaybackState := .IDLE
  currentSource : Option String := none
  mediaType : MediaType := .UNKNOWN
  lastError : Option String := none
  stateChangedEvents : List (PlaybackState × PlaybackState) := []
deriving DecidableEq

/-- `VideoManager._set_state`: update the state and emit
`state_changed(old, new)` only when the value actually changes. -/
def set_state (vm : VMState) (new_state : PlaybackState) : VMState :=
  if vm.state = new_state then vm
  else { vm with
         state := new_state,
         stateChangedEvents := vm.stateChangedEvents ++ [(vm.state, new_state)] }

/-- The engine callbacks that drive the state machine. -/
inductive VlcEvent where
  | playing | paused | stopped | ended | error | buffering
deriving DecidableEq

/-- The playback state each engine callback drives the manager to. -/
def targetState : VlcEvent → PlaybackState
  | .playing => .PLAYING
  | .paused => .PAUSED
  | .stopped => .STOPPED
  | .ended => .ENDED
  | .error => .ERROR
  | .buffering => .BUFFERING

/-- The `_on_vlc_*` handlers, restricted to their effect on the playback
state, last error and emitted `state_changed` events: each calls
`_set_state` with its state (the error handler records a generic
message first; the buffering handler guards against re-entering
BUFFERING, which `_set_state` would also de-duplicate). -/
def handleVlcEvent (vm : VMState) : VlcEvent → VMState
  | .playing => set_state vm .PLAYING
  | .paused => set_state vm .PAUSED
  | .stopped => set_state vm .STOPPED
  | .ended => set_state vm .ENDED
  | .error => set_state { vm with lastError := some "Playback error occurred" } .ERROR
  | .buffering => if vm.state ≠ .BUFFERING then set_state vm .BUFFERING else vm

/-- Feed a sequence of engine callbacks to the manager. -/
def runEvents (vm : VMState) (events : List VlcEvent) : VMState :=
  events.foldl handleVlcEvent vm

/-- The result `load` signals to its caller: normal return, or one of
the two exception kinds it raises. -/
inductive LoadOutcome where
  | success
  | invalidSource (msg : Option String)
  | mediaLoadError (msg : String)
deriving DecidableEq

/-- `VideoManager.load` with `validate=True` unless stated otherwise:
strip the source, validate (on failure record the message, enter ERROR
and raise `InvalidSourceError`), classify, enter LOADING, delegate to
the backend (`backendOk` is `AniVishBackend.set_media`'s result; on
failure record the message, enter ERROR and raise `MediaLoadError`),
and on success record the source, clear the error and enter STOPPED. -/
def load (fs : FS) (backendOk : Bool) (vm0 : VMState) (source0 : String)
    (validate : Bool) : VMState × LoadOutcome :=
  let source := pyStrip source0
  let afterValidation : VMState × LoadOutcome :=
    let vm1 := { vm0 with mediaType := detect_media_type fs source }
    let vm2 := set_state vm1 .LOADING
    if backendOk then
      let vm3 := { vm2 with currentSource := some source, lastError := none }
      (set_state vm3 .STOPPED, .success)
    else
      let vm3 := { vm2 with lastError := some "Failed to load media" }
      (set_state vm3 .ERROR, .mediaLoadError "Backend failed to load media")
  if validate then
    match validate_source fs source with
    | (true, _) => afterValidation
    | (false, err) =>
      let vm1 := { vm0 with lastError := err }
      (set_state vm1 .ERROR, .invalidSource err)
  else afterValidation

/-! ## Claim theorems -/

/-- Claim C9: serializing any configuration tree to its JSON dictionary
form (`_config_to_dict`) and parsing that dictionary back
(`_dict_to_config`) succeeds and reproduces every field of the tree —
all five sections, `recent_files` and `max_recent_files`. -/
theorem c9_roundtrip (c : AniVishConfig) :
    dict_to_config (config_to_dict c) = .ok c := rfl

/-- Claim C2 (amended): with no path or a non-existent path,
`load_keybindings` produces exactly the default table, which equals the
specification's section-6 enumeration and has 27 entries (not 28); a
parseable file replaces the table wholesale with the file's contents
(no merging with defaults); a file that fails to parse yields exactly
the default table. -/
theorem c2_amended (m : List (String × String)) :
    load_keybindings none = DEFAULT_KEYBINDINGS ∧
    DEFAULT_KEYBINDINGS = specEnumeratedKeybindings ∧
    DEFAULT_KEYBINDINGS.length = 27 ∧
    load_keybindings (some (.ok m)) = m ∧
    load_keybindings (some (.error ())) = DEFAULT_KEYBINDINGS :=
  ⟨rfl, by decide, by decide, rfl, rfl⟩

/-- Claim C2 counterexample: the built-in default table has 27 entries,
not the 28 the claim states. -/
theorem c2_counterexample : ¬ DEFAULT_KEYBINDINGS.length = 28 := by decide

/-- Claim C5 (amended): when the current time is a known nonnegative
value and the total duration is positive, `seek_relative` issues a seek
to `clamp(current + offset, 0, total)`, which is never below 0 and
never above the total duration, for every offset magnitude.  (With a
zero duration the upper cap is skipped by the source; see the
counterexample.) -/
theorem c5_amended (current total offset : Int)
    (hc : 0 ≤ current) (ht : 0 < total) :
    seek_relative current total offset = some (min (max 0 (current + offset)) total) ∧
    0 ≤ min (max 0 (current + offset)) total ∧
    min (max 0 (current + offset)) total ≤ total := by
  refine ⟨?_, by omega, by omega⟩
  simp [seek_relative, hc, ht]

/-- Claim C5 witness at the specification's example: current time
5000 ms, duration 10000 ms, offsets ±100000 ms give targets 0 and
10000. -/
theorem c5_amended_witness :
    seek_relative 5000 10000 (-100000) = some 0 ∧
    seek_relative 5000 10000 100000 = some 10000 := by
  constructor
  · exact (c5_amended 5000 10000 (-100000) (by decide) (by decide)).1.trans (by decide)
  · exact (c5_amended 5000 10000 100000 (by decide) (by decide)).1.trans (by decide)

/-- Claim C5 counterexample: with current time 0 and total duration 0 —
both known nonnegative values — an offset of 5 produces a seek target
of 5, above the total duration, instead of the claimed
`clamp(0 + 5, 0, 0) = 0`: the source only applies the upper cap when
the duration is strictly positive. -/
theorem c5_counterexample :
    seek_relative 0 0 5 = some 5 ∧
    ¬ (5 : Int) ≤ 0 ∧
    min (max 0 ((0 : Int) + 5)) 0 = 0 ∧
    (0 : Int) ≠ 5 := by decide

/-- Claim C6 (amended): for every volume v in 0..100, from any backend
state that is not muted — or for any state at all when v is positive,
since a positive `set_volume` clears the flag — setting the volume to
v, muting, then unmuting restores exactly v: after `mute()` the
reported volume is 0 and `is_muted()` is true, after `unmute()` the
reported volume is v and `is_muted()` is false.  `mute()` when already
muted and `unmute()` when not muted are no-ops.  (From an
already-muted state with v = 0 the claim fails; see the
counterexample.) -/
theorem c6_amended (s : BackendAudioState) (v : Int)
    (h0 : 0 ≤ v) (h100 : v ≤ 100) (hok : 0 < v ∨ s.muted = false) :
    get_volume (mute (set_volume s v)) = 0 ∧
    is_muted (mute (set_volume s v)) = true ∧
    get_volume (unmute (mute (set_volume s v))) = v ∧
    is_muted (unmute (mute (set_volume s v))) = false ∧
    (∀ t, is_muted t = true → mute t = t) ∧
    (∀ t, is_muted t = false → unmute t = t) := by
  have hv : max 0 (min 100 v) = v := by omega
  have hm : (set_volume s v).muted = false := by
    rcases hok with h | h
    · simp [set_volume, hv, h]
    · by_cases h' : 0 < v <;> simp [set_volume, h, h']
  have hvol : (set_volume s v).volume = v := by simp [set_volume, hv]
  refine ⟨?_, ?_, ?_, ?_, ?_, ?_⟩
  · simp [mute, get_volume, hm]
  · simp [mute, is_muted, hm]
  · simp [mute, unmute, get_volume, hm, hvol]
  · simp [mute, unmute, is_muted, hm]
  · intro t ht; simp [mute, is_muted] at ht ⊢; simp [ht]
  · intro t ht; simp [is_muted] at ht; simp [unmute, ht]

/-- Claim C6 witness at the specification's example: volume 73 on a
fresh backend. -/
theorem c6_amended_witness :
    get_volume (mute (set_volume (initAudioState 100) 73)) = 0 ∧
    is_muted (mute (set_volume (initAudioState 100) 73)) = true ∧
    get_volume (unmute (mute (set_volume (initAudioState 100) 73))) = 73 ∧
    is_muted (unmute (mute (set_volume (initAudioState 100) 73))) = false := by
  have h := c6_amended (initAudioState 100) 73 (by decide) (by decide) (Or.inl (by decide))
  exact ⟨h.1, h.2.1, h.2.2.1, h.2.2.2.1⟩

/-- Claim C6 counterexample: set volume 73, mute (remembering 73), then
run the claimed sequence for v = 0 — set volume 0 (which leaves the
muted flag set), mute (a no-op that does not re-remember), unmute.  The
reported volume is 73, not the claimed 0. -/
theorem c6_counterexample :
    is_muted (set_volume (mute (set_volume (initAudioState 100) 73)) 0) = true ∧
    get_volume (unmute (mute (set_volume (mute (set_volume (initAudioState 100) 73)) 0))) = 73 ∧
    (73 : Int) ≠ 0 := by decide

/-- Claim C10: the adapter's muted flag is set only by an explicit
`mute()`: `set_volume 0` zeroes the engine volume but leaves the flag
unchanged (so still false when it was false), any positive `set_volume`
clears the flag, and no `set_volume` ever sets it. -/
theorem c10_set_volume_mute_flag (s : BackendAudioState) :
    get_volume (set_volume s 0) = 0 ∧
    is_muted (set_volume s 0) = is_muted s ∧
    (is_muted s = false → is_muted (set_volume s 0) = false) ∧
    (∀ v : Int, 0 < v → is_muted (set_volume s v) = false) ∧
    (∀ v : Int, is_muted (set_volume s v) = true → is_muted s = true) := by
  refine ⟨by simp [set_volume, get_volume], ?_, ?_, ?_, ?_⟩
  · simp [set_volume, is_muted]
  · intro h; simp [is_muted] at h; simp [set_volume, is_muted, h]
  · intro v hv
    have : 0 < max 0 (min 100 v) := by omega
    simp [set_volume, is_muted, this]
  · intro v hv
    by_cases h : 0 < max 0 (min 100 v) <;> simp [set_volume, is_muted, h] at hv ⊢
    exact hv

/-- Claim C10 witness on a fresh (unmuted) backend at volume 100. -/
theorem c10_witness :
    get_volume (set_volume (initAudioState 100) 0) = 0 ∧
    is_muted (set_volume (initAudioState 100) 0) = false ∧
    is_muted (set_volume (initAudioState 100) 55) = false := by
  have h := c10_set_volume_mute_flag (initAudioState 100)
  exact ⟨h.1, h.2.2.1 (by decide), h.2.2.2.1 55 (by decide)⟩

/-- The Python slice `l[:m]` always yields a sublist of `l` (both the
nonnegative-bound and the negative-bound branches are `take`s). -/
theorem pySliceTo_sublist {α : Type} (l : List α) (m : Int) :
    (pySliceTo l m).Sublist l := by
  unfold pySliceTo
  by_cases h : 0 ≤ m <;> simp [h, List.take_sublist]

/-- Claim C7 (amended): `add_recent_file` removes the first existing
occurrence of the path, inserts the path at the front, and truncates to
`max_recent_files` entries.  Consequently: a starting list holding the
path at most once yields a result holding it at most once; a
duplicate-free starting list stays duplicate-free (so no sequence of
additions ever introduces a duplicate); with a nonnegative
`max_recent_files` the result never exceeds it; and with a positive
`max_recent_files` the added path is at the front.  (A starting list
that already holds the path twice keeps a duplicate, because Python's
`list.remove` drops only the first occurrence; see the
counterexample.) -/
theorem c7_amended (c : AniVishConfig) (p : String) :
    (List.count p c.recent_files ≤ 1 →
      List.count p (add_recent_file c p).recent_files ≤ 1) ∧
    (c.recent_files.Nodup → (add_recent_file c p).recent_files.Nodup) ∧
    (0 ≤ c.max_recent_files →
      ((add_recent_file c p).recent_files.length : Int) ≤ c.max_recent_files) ∧
    (0 < c.max_recent_files → (add_recent_file c p).recent_files.head? = some p) := by
  have hsub : (add_recent_file c p).recent_files.Sublist (p :: c.recent_files.erase p) :=
    pySliceTo_sublist _ _
  refine ⟨?_, ?_, ?_, ?_⟩
  · intro hcount
    have h1 : List.count p (add_recent_file c p).recent_files ≤
        List.count p (p :: c.recent_files.erase p) := hsub.count_le p
    have h2 : List.count p (p :: c.recent_files.erase p) =
        List.count p (c.recent_files.erase p) + 1 := List.count_cons_self p _
    have h3 : List.count p (c.recent_files.erase p) = List.count p c.recent_files - 1 :=
      List.count_erase_self p c.recent_files
    omega
  · intro hnodup
    have hcount : List.count p c.recent_files ≤ 1 :=
      List.nodup_iff_count_le_one.mp hnodup p
    have hnotmem : p ∉ c.recent_files.erase p := by
      have h3 : List.count p (c.recent_files.erase p) = List.count p c.recent_files - 1 :=
        List.count_erase_self p c.recent_files
      have : List.count p (c.recent_files.erase p) = 0 := by omega
      exact (List.count_eq_zero).mp this
    exact hsub.nodup (List.nodup_cons.mpr ⟨hnotmem, hnodup.erase p⟩)
  · intro hm
    have hlen : (add_recent_file c p).recent_files.length ≤ c.max_recent_files.toNat := by
      simp only [add_recent_file, pySliceTo, if_pos hm]
      simp [List.length_take]
    omega
  · intro hm
    obtain ⟨k, hk⟩ : ∃ k, c.max_recent_files.toNat = k + 1 :=
      ⟨c.max_recent_files.toNat - 1, by omega⟩
    simp [add_recent_file, pySliceTo, if_pos (le_of_lt hm), hk]

/-- Claim C7 witness: adding "a" to the singleton list ["b"] (capacity
10). -/
theorem c7_amended_witness :
    List.count "a" (add_recent_file { recent_files := ["b"] } "a").recent_files ≤ 1 ∧
    (add_recent_file { recent_files := ["b"] } "a").recent_files.Nodup ∧
    ((add_recent_file { recent_files := ["b"] } "a").recent_files.length : Int) ≤ 10 ∧
    (add_recent_file { recent_files := ["b"] } "a").recent_files.head? = some "a" := by
  have h := c7_amended { recent_files := ["b"] } "a"
  exact ⟨h.1 (by decide), h.2.1 (by decide), h.2.2.1 (by decide), h.2.2.2 (by decide)⟩

/-- Claim C7 counterexample: starting from a recent-files list that
already holds "a" twice, `add_recent_file "a"` removes only the first
occurrence, so the result still holds a duplicate of the added path —
the claim's "removes any existing occurrence … never contains a
duplicate of the added path" fails. -/
theorem c7_counterexample :
    (add_recent_file { recent_files := ["a", "a"] } "a").recent_files = ["a", "a"] ∧
    ¬ List.count "a" (add_recent_file { recent_files := ["a", "a"] } "a").recent_files ≤ 1 := by
  constructor
  · rfl
  · decide

/-- The configuration tree the specification describes for a
structurally clean file: each of the five sub-records is populated only
from the keys present for that section, missing keys keep their
defaults, and unknown top-level keys are ignored.  This definition
follows the specification's words so that it can be compared with the
source-derived `load_config`: `spec…Of` gives one section, populated
only from the present keys, and `specLoadedTree` assembles the tree. -/
def specPlaybackOf : Option PlaybackDict → PlaybackConfig
  | none => {}
  | some pd =>
    { default_volume := pd.default_volume.getD 100
      default_speed := pd.default_speed.getD 1
      resume_playback := pd.resume_playback.getD true
      skip_interval_short := pd.skip_interval_short.getD 10000
      skip_interval_long := pd.skip_interval_long.getD 60000
      auto_play_next := pd.auto_play_next.getD false }

def specAudioOf : Option AudioDict → AudioConfig
  | none => {}
  | some ad =>
    { preferred_audio_track := ad.preferred_audio_track.getD (-1)
      audio_delay_ms := ad.audio_delay_ms.getD 0
      normalize_audio := ad.normalize_audio.getD false
      preferred_language := ad.preferred_language.getD "eng" }

def specSubtitleOf : Option SubtitleDict → SubtitleConfig
  | none => {}
  | some sd =>
    { enabled := sd.enabled.getD true
      preferred_language := sd.preferred_language.getD ""
      subtitle_delay_ms := sd.subtitle_delay_ms.getD 0
      font_size := sd.font_size.getD 24
      font_color := sd.font_color.getD "#FFFFFF"
      background_opacity := sd.background_opacity.getD (1 / 2) }

def specUiOf : Option UIDict → UIConfig
  | none => {}
  | some ud =>
    { theme := ud.theme.getD "dark"
      window_width := ud.window_width.getD 1280
      window_height := ud.window_height.getD 720
      window_maximized := ud.window_maximized.getD false
      show_controls_on_hover := ud.show_controls_on_hover.getD true
      controls_timeout_ms := ud.controls_timeout_ms.getD 3000 }

def specLoggingOf : Option LoggingDict → LoggingConfig
  | none => {}
  | some ld =>
    { level := ld.level.getD "INFO"
      log_to_file := ld.log_to_file.getD false
      log_directory := ld.log_directory.getD "./logs" }

def specLoadedTree (d : ConfigDict) : AniVishConfig :=
  { playback := specPlaybackOf d.playback
    audio := specAudioOf d.audio
    subtitle := specSubtitleOf d.subtitle
    ui := specUiOf d.ui
    logging := specLoggingOf d.logging
    recent_files := d.recent_files.getD []
    max_recent_files := d.max_recent_files.getD 10 }

/-- Claim C1 (amended): loading never raises — `load_config` is total,
a JSON parse failure yields the all-default tree; when every present
section is free of unrecognised keys, each sub-record is populated only
from the keys present for that section (missing keys keep defaults) and
unknown top-level keys are ignored, preserving the valid sections'
values; but an unrecognised key inside any present section makes the
keyword expansion raise, and the catch-all reverts the entire tree to
defaults (the per-field fallback the original claim states does not
happen). -/
theorem c1_amended (d : ConfigDict) :
    load_config none = ({} : AniVishConfig) ∧
    ((∀ pd ∈ d.playback, pd.extra = []) → (∀ ad ∈ d.audio, ad.extra = []) →
     (∀ sd ∈ d.subtitle, sd.extra = []) → (∀ ud ∈ d.ui, ud.extra = []) →
     (∀ ld ∈ d.logging, ld.extra = []) →
      load_config (some d) = specLoadedTree d) ∧
    ((∃ pd ∈ d.playback, pd.extra ≠ []) ∨ (∃ ad ∈ d.audio, ad.extra ≠ []) ∨
     (∃ sd ∈ d.subtitle, sd.extra ≠ []) ∨ (∃ ud ∈ d.ui, ud.extra ≠ []) ∨
     (∃ ld ∈ d.logging, ld.extra ≠ []) →
      load_config (some d) = ({} : AniVishConfig)) := by
  refine ⟨rfl, ?_, ?_⟩
  · intro hp ha hs hu hl
    have hP : loadSection playbackFromDict {} d.playback = .ok (specPlaybackOf d.playback) := by
      cases hc : d.playback with
      | none => rfl
      | some pd => simp [loadSection, playbackFromDict, hp pd (Option.mem_def.mpr hc), specPlaybackOf]
    have hA : loadSection audioFromDict {} d.audio = .ok (specAudioOf d.audio) := by
      cases hc : d.audio with
      | none => rfl
      | some ad => simp [loadSection, audioFromDict, ha ad (Option.mem_def.mpr hc), specAudioOf]
    have hS : loadSection subtitleFromDict {} d.subtitle = .ok (specSubtitleOf d.subtitle) := by
      cases hc : d.subtitle with
      | none => rfl
      | some sd => simp [loadSection, subtitleFromDict, hs sd (Option.mem_def.mpr hc), specSubtitleOf]
    have hU : loadSection uiFromDict {} d.ui = .ok (specUiOf d.ui) := by
      cases hc : d.ui with
      | none => rfl
      | some ud => simp [loadSection, uiFromDict, hu ud (Option.mem_def.mpr hc), specUiOf]
    have hL : loadSection loggingFromDict {} d.logging = .ok (specLoggingOf d.logging) := by
      cases hc : d.logging with
      | none => rfl
      | some ld => simp [loadSection, loggingFromDict, hl ld (Option.mem_def.mpr hc), specLoggingOf]
    have hdict : dict_to_config d = .ok (specLoadedTree d) := by
      simp only [dict_to_config, hP, hA, hS, hU, hL]
      rfl
    simp [load_config, hdict]
  · have herr : ∀ h : dict_to_config d = .error (), load_config (some d) = ({} : AniVishConfig) := by
      intro h; simp [load_config, h]
    rintro (⟨pd, hpd, hne⟩ | ⟨ad, had, hne⟩ | ⟨sd, hsd, hne⟩ | ⟨ud, hud, hne⟩ | ⟨ld, hld, hne⟩)
    · refine herr ?_
      have hbad : loadSection playbackFromDict {} d.playback = .error () := by
        rw [Option.mem_def.mp hpd]; simp [loadSection, playbackFromDict, hne]
      simp only [dict_to_config, hbad]; rfl
    · refine herr ?_
      have hbad : loadSection audioFromDict {} d.audio = .error () := by
        rw [Option.mem_def.mp had]; simp [loadSection, audioFromDict, hne]
      simp only [dict_to_config, hbad]
      cases loadSection playbackFromDict {} d.playback <;> rfl
    · refine herr ?_
      have hbad : loadSection subtitleFromDict {} d.subtitle = .error () := by
        rw [Option.mem_def.mp hsd]; simp [loadSection, subtitleFromDict, hne]
      simp only [dict_to_config, hbad]
      cases loadSection playbackFromDict {} d.playback <;>
        [rfl; cases loadSection audioFromDict {} d.audio <;> rfl]
    · refine herr ?_
      have hbad : loadSection uiFromDict {} d.ui = .error () := by
        rw [Option.mem_def.mp hud]; simp [loadSection, uiFromDict, hne]
      simp only [dict_to_config, hbad]
      cases loadSection playbackFromDict {} d.playback <;>
        [rfl;
         cases loadSection audioFromDict {} d.audio <;>
           [rfl; cases loadSection subtitleFromDict {} d.subtitle <;> rfl]]
    · refine herr ?_
      have hbad : loadSection loggingFromDict {} d.logging = .error () := by
        rw [Option.mem_def.mp hld]; simp [loadSection, loggingFromDict, hne]
      simp only [dict_to_config, hbad]
      cases loadSection playbackFromDict {} d.playback <;>
        [rfl;
         cases loadSection audioFromDict {} d.audio <;>
           [rfl;
            cases loadSection subtitleFromDict {} d.subtitle <;>
              [rfl; cases loadSection uiFromDict {} d.ui <;> rfl]]]

/-- Claim C1 witness: a clean file setting one key in the playback
section and one key in the ui section alongside an unknown top-level
key populates exactly those keys and keeps every other default. -/
theorem c1_amended_witness :
    load_config (some { playback := some { default_volume := some 50 },
                        ui := some { theme := some "light" },
                        extra := ["unrelated"] }) =
      specLoadedTree { playback := some { default_volume := some 50 },
                       ui := some { theme := some "light" },
                       extra := ["unrelated"] } ∧
    (specLoadedTree { playback := some { default_volume := some 50 },
                      ui := some { theme := some "light" },
                      extra := ["unrelated"] }).playback.default_volume = 50 ∧
    (specLoadedTree { playback := some { default_volume := some 50 },
                      ui := some { theme := some "light" },
                      extra := ["unrelated"] }).ui.theme = "light" ∧
    (specLoadedTree { playback := some { default_volume := some 50 },
                      ui := some { theme := some "light" },
                      extra := ["unrelated"] }).audio = ({} : AudioConfig) := by
  refine ⟨?_, by decide, by decide, by decide⟩
  exact (c1_amended _).2.1 (by decide) (by decide) (by decide) (by decide) (by decide)

/-- The configuration file of the C1 counterexample: the playback
section sets `default_volume` to 50 but also holds an unrecognised key
`bogus`; the ui section validly sets `theme` to "light". -/
def c1CexDict : ConfigDict :=
  { playback := some { default_volume := some 50, extra := ["bogus"] },
    ui := some { theme := some "light" } }

/-- Claim C1 counterexample: on `c1CexDict` the claim demands that the
unrecognised key `bogus` keep its (nonexistent) default while
`default_volume = 50` and `theme = "light"` are applied; instead the
keyword expansion of the playback section raises `TypeError` and the
handler reverts the whole tree to defaults: the volume is 100 and the
theme is "dark". -/
theorem c1_counterexample :
    (load_config (some c1CexDict)).playback.default_volume = 100 ∧
    (load_config (some c1CexDict)).ui.theme = "dark" ∧
    (50 : Int) ≠ 100 ∧ ("light" : String) ≠ "dark" := by decide

/-- Each engine handler changes the playback state and the emitted
`state_changed` log exactly as `_set_state` at its target state does
(the error handler additionally records a message; the buffering
handler's own guard is subsumed by `_set_state`'s). -/
theorem handleVlcEvent_like_set_state (vm : VMState) (e : VlcEvent) :
    (handleVlcEvent vm e).state = (set_state vm (targetState e)).state ∧
    (handleVlcEvent vm e).stateChangedEvents =
      (set_state vm (targetState e)).stateChangedEvents := by
  cases e with
  | playing => exact ⟨rfl, rfl⟩
  | paused => exact ⟨rfl, rfl⟩
  | stopped => exact ⟨rfl, rfl⟩
  | ended => exact ⟨rfl, rfl⟩
  | error =>
    by_cases h : vm.state = .ERROR <;>
      simp [handleVlcEvent, targetState, set_state, h]
  | buffering =>
    by_cases h : vm.state = .BUFFERING <;>
      simp [handleVlcEvent, targetState, set_state, h]

/-- Length of the `state_changed` log after a run, via the destuttered
state sequence: running any event list adds one emission per position
at which the driven-to state differs from the manager's state at that
moment. -/
theorem runEvents_log_length (events : List VlcEvent) :
    ∀ vm : VMState,
      (runEvents vm events).stateChangedEvents.length + 1 =
        vm.stateChangedEvents.length +
          ((events.map targetState).destutter' Ne vm.state).length := by
  induction events with
  | nil => intro vm; simp [runEvents, List.destutter']
  | cons e es ih =>
    intro vm
    have hlike := handleVlcEvent_like_set_state vm e
    have hrun : runEvents vm (e :: es) = runEvents (handleVlcEvent vm e) es := rfl
    by_cases h : vm.state = targetState e
    · have hst : (handleVlcEvent vm e).state = vm.state := by
        rw [hlike.1, set_state, if_pos h]
      have hev : (handleVlcEvent vm e).stateChangedEvents = vm.stateChangedEvents := by
        rw [hlike.2, set_state, if_pos h]
      rw [hrun, ih, hst, hev, List.map_cons,
        List.destutter'_cons_neg _ (fun hne => hne h)]
    · have hst : (handleVlcEvent vm e).state = targetState e := by
        rw [hlike.1, set_state, if_neg h]
      have hev : (handleVlcEvent vm e).stateChangedEvents =
          vm.stateChangedEvents ++ [(vm.state, targetState e)] := by
        rw [hlike.2, set_state, if_neg h]
      have hR : vm.state ≠ targetState e := h
      rw [hrun, ih, hst, hev, List.map_cons, List.destutter'_cons_pos _ hR]
      simp only [List.length_append, List.length_cons, List.length_nil]
      omega

/-- Every pair in the `state_changed` log has distinct old and new
states. -/
theorem runEvents_log_pairs (events : List VlcEvent) :
    ∀ vm : VMState,
      (∀ pr ∈ vm.stateChangedEvents, pr.1 ≠ pr.2) →
      ∀ pr ∈ (runEvents vm events).stateChangedEvents, pr.1 ≠ pr.2 := by
  induction events with
  | nil => intro vm h; exact h
  | cons e es ih =>
    intro vm h
    have hlike := handleVlcEvent_like_set_state vm e
    have hrun : runEvents vm (e :: es) = runEvents (handleVlcEvent vm e) es := rfl
    rw [hrun]
    refine ih _ ?_
    rw [hlike.2, set_state]
    by_cases hst : vm.state = targetState e
    · rw [if_pos hst]; exact h
    · rw [if_neg hst]
      intro pr hpr
      rcases List.mem_append.mp hpr with hin | hin
      · exact h pr hin
      · rcases List.mem_singleton.mp hin with rfl
        exact hst

/-- Claim C4: starting a fresh manager in any state, a sequence of
engine state notifications emits `state_changed(old, new)` exactly once
per distinct state change — the number of emissions is the length of
the destuttered state sequence minus one, so identical-state
notifications emit nothing — and every emitted pair has old ≠ new. -/
theorem c4_state_changed_dedup (s0 : PlaybackState) (events : List VlcEvent) :
    (runEvents { state := s0 } events).stateChangedEvents.length + 1 =
      ((s0 :: events.map targetState).destutter Ne).length ∧
    ∀ pr ∈ (runEvents { state := s0 } events).stateChangedEvents, pr.1 ≠ pr.2 := by
  constructor
  · have h := runEvents_log_length events { state := s0 }
    simpa [List.destutter_cons'] using h
  · exact runEvents_log_pairs events { state := s0 } (by simp)

/-- The specification's example, checked directly on the embedding: two
consecutive "Paused" engine events while playing yield exactly one
`state_changed` notification, and two consecutive "Paused" events while
already paused yield none. -/
theorem paused_twice_examples :
    (runEvents { state := .PLAYING } [.paused, .paused]).stateChangedEvents =
      [(.PLAYING, .PAUSED)] ∧
    (runEvents { state := .PAUSED } [.paused, .paused]).stateChangedEvents = [] := by
  decide

/-- Claim C3 (amended): for every existing regular local file whose
(stripped) path does not parse as a URL with a recognised scheme — so
that the source is classified LOCAL_FILE — and whose extension is
present but not in the supported video/audio set, `load` fails
validation: it raises InvalidSource with the "Unsupported format"
message, leaves a fresh manager in the ERROR state with that non-empty
last-error message, and never sets the current source.  (A local file
whose path happens to parse as a URL with a recognised scheme is
classified as a URL before the filesystem is consulted and escapes this
validation; see the counterexample.) -/
theorem c3_amended (fs : FS) (backendOk : Bool) (src : String)
    (hstrip : pyStrip src = src)
    (hscheme : (urlparse src).scheme ∉ (["http", "https", "rtsp", "rtmp", "mms"] : List String))
    (hex : fs.pathExists src = true)
    (hfile : fs.isFile src = true)
    (hpres : extLower src ≠ "")
    (hunsup : extLower src ∉ SUPPORTED_VIDEO_EXT ++ SUPPORTED_AUDIO_EXT) :
    load fs backendOk {} src true =
      ({ state := .ERROR,
         lastError := some ("Unsupported format: " ++ extLower src),
         stateChangedEvents := [(.IDLE, .ERROR)] },
       .invalidSource (some ("Unsupported format: " ++ extLower src))) ∧
    ("Unsupported format: " ++ extLower src) ≠ "" := by
  have hdet : detect_media_type fs src = .LOCAL_FILE := by
    simp [detect_media_type, hscheme, hex]
  have hval : validate_source fs src =
      (false, some ("Unsupported format: " ++ extLower src)) := by
    simp only [validate_source, hdet]
    simp [validate_local_file, hex, hfile, hpres, hunsup]
  constructor
  · simp [load, hstrip, hval, set_state]
  · intro h
    have hd := congrArg String.data h
    rw [String.data_append] at hd
    have hnil : ("" : String).data = [] := rfl
    rw [hnil] at hd
    have := List.append_eq_nil.mp hd
    exact absurd this.1 (by decide)

/-- The filesystem of the C3 witness: only "movie.xyz" exists, as a
readable regular file. -/
def c3WitnessFS : FS :=
  { pathExists := fun s => s == "movie.xyz",
    isFile := fun s => s == "movie.xyz",
    readFailure := fun _ => none }

/-- Claim C3 witness at the specification's example "movie.xyz". -/
theorem c3_amended_witness :
    load c3WitnessFS true {} "movie.xyz" true =
      ({ state := .ERROR,
         lastError := some "Unsupported format: .xyz",
         stateChangedEvents := [(.IDLE, .ERROR)] },
       .invalidSource (some "Unsupported format: .xyz")) ∧
    ("Unsupported format: .xyz" : String) ≠ "" := by
  have h := c3_amended c3WitnessFS true "movie.xyz" (by decide) (by decide)
    (by decide) (by decide) (by decide) (by decide)
  exact ⟨h.1.trans (by decide), by decide⟩

/-- The filesystem of the C3 counterexample: "http://h/movie.xyz" is an
existing, readable regular file (on a POSIX filesystem a directory may
be named "http:"). -/
def c3CexFS : FS :=
  { pathExists := fun s => s == "http://h/movie.xyz",
    isFile := fun s => s == "http://h/movie.xyz",
    readFailure := fun _ => none }

/-- Claim C3 counterexample: "http://h/movie.xyz" names an existing
regular local file whose extension ".xyz" is present and unsupported,
yet `load` parses the source as a URL before consulting the filesystem,
validates it as a URL, and completes: no InvalidSource outcome, the
state is STOPPED rather than ERROR, and the current source is set. -/
theorem c3_counterexample :
    c3CexFS.pathExists "http://h/movie.xyz" = true ∧
    c3CexFS.isFile "http://h/movie.xyz" = true ∧
    extLower "http://h/movie.xyz" = ".xyz" ∧
    (".xyz" : String) ∉ SUPPORTED_VIDEO_EXT ++ SUPPORTED_AUDIO_EXT ∧
    load c3CexFS true {} "http://h/movie.xyz" true =
      ({ state := .STOPPED,
         currentSource := some "http://h/movie.xyz",
         mediaType := .HTTP_URL,
         lastError := none,
         stateChangedEvents := [(.IDLE, .LOADING), (.LOADING, .STOPPED)] },
       .success) := by decide

/-- Claim C8: a URL whose scheme is one of {http, https, rtsp, rtmp,
mms} is classified by the lowercased extension of its path — .m3u8/.m3u
as STREAM_HLS, .mpd as STREAM_DASH, anything else as HTTP_URL;
validation rejects a URL with a nonempty scheme outside {http, https,
rtsp, rtmp, mms, file} as an unsupported scheme, rejects a URL with a
recognised non-file scheme and an empty host as missing its host, and
accepts any URL with scheme file. -/
theorem c8_url_classification (fs : FS) (url : String) :
    ((urlparse url).scheme ∈ (["http", "https", "rtsp", "rtmp", "mms"] : List String) →
      detect_media_type fs url =
        (if extLower (urlparse url).path = ".m3u8" ∨ extLower (urlparse url).path = ".m3u"
         then .STREAM_HLS
         else if extLower (urlparse url).path = ".mpd" then .STREAM_DASH
         else .HTTP_URL)) ∧
    ((urlparse url).scheme ≠ "" →
      (urlparse url).scheme ∉ (["http", "https", "rtsp", "rtmp", "mms", "file"] : List String) →
      validate_url url = (false, some ("Unsupported URL scheme: " ++ (urlparse url).scheme))) ∧
    ((urlparse url).scheme ∈ (["http", "https", "rtsp", "rtmp", "mms"] : List String) →
      (urlparse url).netloc = "" →
      validate_url url = (false, some "URL missing host")) ∧
    ((urlparse url).scheme = "file" → validate_url url = (true, none)) := by
  refine ⟨?_, ?_, ?_, ?_⟩
  · intro h
    simp [detect_media_type, h, extLower]
  · intro h1 h2
    simp [validate_url, h1, h2]
  · intro h5 hn
    have hfacts : ∀ x ∈ (["http", "https", "rtsp", "rtmp", "mms"] : List String),
        x ≠ "" ∧ x ∈ (["http", "https", "rtsp", "rtmp", "mms", "file"] : List String) ∧
        x ≠ "file" := by decide
    obtain ⟨hne, h6, hnf⟩ := hfacts _ h5
    simp [validate_url, hne, h6, hn, hnf]
  · intro hf
    simp [validate_url, hf]

/-- A filesystem on which nothing exists, for the C8 witness. -/
def c8WitnessFS : FS :=
  { pathExists := fun _ => false, isFile := fun _ => false, readFailure := fun _ => none }

/-- Claim C8 witness at the specification's three examples:
"https://example.com/stream.m3u8" classifies as STREAM_HLS, "http://"
fails with "URL missing host", and "ftp://example.com/a.mp4" fails as
an unsupported scheme. -/
theorem c8_witness :
    detect_media_type c8WitnessFS "https://example.com/stream.m3u8" = .STREAM_HLS ∧
    validate_url "http://" = (false, some "URL missing host") ∧
    validate_url "ftp://example.com/a.mp4" = (false, some "Unsupported URL scheme: ftp") := by
  refine ⟨?_, ?_, ?_⟩
  · exact ((c8_url_classification c8WitnessFS "https://example.com/stream.m3u8").1
      (by decide)).trans (by decide)
  · exact (c8_url_classification c8WitnessFS "http://").2.2.1 (by decide) (by decide)
  · exact ((c8_url_classification c8WitnessFS "ftp://example.com/a.mp4").2.1
      (by decide) (by decide)).trans (by decide)
